import Mathlib

/-!
Shallow embedding of `src/server.py`: a small MCP server exposing the
Rejseplanen.dk HTTP API as five tool handlers sharing one HTTP request
helper (`make_api_request`).

Modelling conventions:
* Python `dict[str, str]` query-parameter mappings become insertion-ordered
  association lists (`Params`); dict assignment is `dinsert`, which
  overwrites in place.
* Python exceptions become values of `PyError`, identified by their class
  (`ValueError` for validation failures, bare `Exception` for upstream
  failures) together with their message.
* The single `requests.get` call is modelled by passing in its outcome as a
  `NetOutcome` value; the list of outbound requests actually issued is
  returned explicitly, so "no network call" is `sent = []`.
* Python `str.strip()` is modelled by `pyStrip`; `str()` applied to a
  float coordinate is modelled by the computable `pyFloatStr` on `ℚ`
  (coordinates are exact rationals here, which is faithful for the
  comparison-only arithmetic the source performs).
* Mutation of the caller's `params` dict by `make_api_request` is modelled
  by explicit state passing: the helper returns the caller's mapping as it
  stands after the call.
-/

/-- An arbitrary JSON value, as decoded from the upstream response body.
The server returns it unmodified and never inspects its internal
structure. -/
inductive Json where
  | null
  | bool (b : Bool)
  | num (q : ℚ)
  | str (s : String)
  | arr (elems : List Json)
  | obj (fields : List (String × Json))

/-- A Python exception raised by the server, identified by its class:
the tool handlers raise `ValueError` on validation failure, and
`make_api_request` raises bare `Exception` on upstream failure.  The
payload is the exception message. -/
inductive PyError where
  | valueError (msg : String)
  | exception (msg : String)
deriving DecidableEq

/-- The Python class name of a raised exception.  Two errors are
distinguishable "by kind" exactly when their class names differ. -/
def PyError.kind : PyError → String
  | .valueError _ => "ValueError"
  | .exception _ => "Exception"

/-- Outcome of the single `requests.get` call inside `make_api_request`:
* `ok body` — 2xx status and a body that decodes to the JSON value `body`;
* `httpError errStr` — non-2xx status, so `response.raise_for_status()`
  raises `requests.exceptions.HTTPError` (a subclass of
  `RequestException`) whose `str` is `errStr`;
* `timeout` — `requests.exceptions.Timeout`;
* `connError errStr` — any other network-level failure, i.e. a
  `requests.exceptions.RequestException` whose `str` is `errStr`;
* `badJson errStr` — 2xx status but `response.json()` raises `ValueError`
  with message `errStr`. -/
inductive NetOutcome where
  | ok (body : Json)
  | httpError (errStr : String)
  | timeout
  | connError (errStr : String)
  | badJson (errStr : String)

/-- A Python `dict[str, str]` of query parameters, as an insertion-ordered
association list with distinct keys maintained by `dinsert`. -/
abbrev Params := List (String × String)

/-- Python dict assignment `d[k] = v`: overwrites the value in place when
the key is already bound, otherwise appends the new binding at the end. -/
def dinsert (k v : String) : Params → Params
  | [] => [(k, v)]
  | (k', v') :: rest => if k' = k then (k, v) :: rest else (k', v') :: dinsert k v rest

/-- Python dict lookup `d.get(k)`. -/
def dlookup (k : String) : Params → Option String
  | [] => none
  | (k', v) :: rest => if k' = k then some v else dlookup k rest

/-- `REJSEPLANEN_API_BASE` from the source. -/
def REJSEPLANEN_API_BASE : String := "https://xmlopen.rejseplanen.dk/bin/rest.exe"

/-- `REQUEST_TIMEOUT` from the source, in seconds. -/
def REQUEST_TIMEOUT : Nat := 30

/-- One outbound HTTP GET actually issued to the upstream API: the target
URL and the query parameters it carried. -/
structure SentRequest where
  url : String
  params : Params
deriving DecidableEq

/-- Result of `make_api_request`: the caller's `params` mapping as it
stands after the call (the helper mutates it in place), the outbound
requests issued during the call, and the decoded JSON or the raised
exception. -/
structure MAResult where
  callerParams : Params
  sent : List SentRequest
  result : Except PyError Json

/-- `make_api_request(endpoint, params)` from the source, with the
behaviour of the network supplied as `net`.  It first executes
`params['format'] = 'json'` on the caller's mapping, builds the URL
`f"{REJSEPLANEN_API_BASE}/{endpoint}"`, issues exactly one GET, and maps
each failure through the `except` clauses of the source:
`Timeout`, then `RequestException` (which also catches the `HTTPError`
raised by `raise_for_status()`), then `ValueError` from `response.json()`.
Every branch re-raises a bare `Exception` built from an f-string. -/
def make_api_request (endpoint : String) (params : Params) (net : NetOutcome) : MAResult :=
  let params := dinsert "format" "json" params
  let url := REJSEPLANEN_API_BASE ++ "/" ++ endpoint
  { callerParams := params
    sent := [⟨url, params⟩]
    result :=
      match net with
      | .ok body => .ok body
      | .timeout => .error (.exception
          ("Request to Rejseplanen API timed out after " ++ toString REQUEST_TIMEOUT ++ " seconds"))
      | .httpError e => .error (.exception ("Rejseplanen API request failed: " ++ e))
      | .connError e => .error (.exception ("Rejseplanen API request failed: " ++ e))
      | .badJson e => .error (.exception ("Failed to parse JSON response: " ++ e)) }

/-- Result of a full tool-handler invocation: the outbound requests issued
and the value returned or the exception raised. -/
structure ToolResult where
  sent : List SentRequest
  result : Except PyError Json

/-- `true` exactly on a raised `ValueError`, the class every validation
failure uses (`InvalidArgument` in the specification's taxonomy). -/
def isInvalidArgument : Except PyError Json → Bool
  | .error (.valueError _) => true
  | _ => false

/-- `true` exactly when a handler's validation stage raised `ValueError`
instead of producing a parameter mapping. -/
def raisesInvalidArgument : Except PyError Params → Bool
  | .error (.valueError _) => true
  | _ => false

/-- Python `str.strip()`: removes leading and trailing whitespace from the
string.  (Defined directly on the character list so that it evaluates by
kernel reduction.) -/
def pyStrip (s : String) : String :=
  ⟨((s.data.dropWhile Char.isWhitespace).reverse.dropWhile Char.isWhitespace).reverse⟩

/-- Models Python `str()` applied to a float coordinate.  The claims only
relate the parameter value to the stringified argument, never to a
particular decimal rendering, so any fixed computable rendering of the
exact rational is faithful. -/
def pyFloatStr (q : ℚ) : String := toString q

/-- Models `if v: params[key] = v` for an `Optional[str]` argument `v`:
`None` and the empty string are falsy and leave the mapping unchanged;
every other string is stored verbatim. -/
def addOptParam (key : String) (v : Option String) (params : Params) : Params :=
  match v with
  | none => params
  | some s => if s = "" then params else dinsert key s params

/-- Validation and parameter construction of `location_search(query)`:
raises `ValueError` when `query` is empty or whitespace-only, otherwise
builds `{'input': query.strip()}`. -/
def location_search_params (query : String) : Except PyError Params :=
  if query = "" ∨ pyStrip query = "" then
    .error (.valueError "Search query cannot be empty")
  else
    .ok [("input", pyStrip query)]

/-- Shared shape of the four network-calling handlers: a raised
`ValueError` propagates to the caller with no outbound request issued;
otherwise the parameters built by the handler go through exactly one call
of `make_api_request`. -/
def runTool (endpoint : String) (built : Except PyError Params) (net : NetOutcome) : ToolResult :=
  match built with
  | .error e => ⟨[], .error e⟩
  | .ok params =>
    let r := make_api_request endpoint params net
    ⟨r.sent, r.result⟩

/-- The full `location_search` handler: validation, then one call of
`make_api_request('location', params)`. -/
def location_search (query : String) (net : NetOutcome) : ToolResult :=
  runTool "location" (location_search_params query) net

/-- Validation and parameter construction of `trip_search`: raises
`ValueError` when `origin_id` or `dest_id` is empty or whitespace-only;
builds `{'originId': ..., 'destId': ...}`, adds `date`/`time` when truthy,
then stores the four transport flags as `'1'`/`'0'` strings. -/
def trip_search_params (origin_id dest_id : String) (date time : Option String)
    (use_train use_bus use_metro use_ferry : Bool) : Except PyError Params :=
  if origin_id = "" ∨ pyStrip origin_id = "" then
    .error (.valueError "origin_id is required")
  else if dest_id = "" ∨ pyStrip dest_id = "" then
    .error (.valueError "dest_id is required")
  else
    let params : Params := [("originId", pyStrip origin_id), ("destId", pyStrip dest_id)]
    let params := addOptParam "date" date params
    let params := addOptParam "time" time params
    let params := dinsert "useTog" (if use_train then "1" else "0") params
    let params := dinsert "useBus" (if use_bus then "1" else "0") params
    let params := dinsert "useMetro" (if use_metro then "1" else "0") params
    let params := dinsert "useFerry" (if use_ferry then "1" else "0") params
    .ok params

/-- The full `trip_search` handler: validation, then one call of
`make_api_request('trip', params)`. -/
def trip_search (origin_id dest_id : String) (date time : Option String)
    (use_train use_bus use_metro use_ferry : Bool) (net : NetOutcome) : ToolResult :=
  runTool "trip"
    (trip_search_params origin_id dest_id date time use_train use_bus use_metro use_ferry) net

/-- Validation and parameter construction of `departure_board`: raises
`ValueError` when `station_id` is empty or whitespace-only; builds
`{'id': station_id.strip()}` and adds `date`/`time` when truthy. -/
def departure_board_params (station_id : String) (date time : Option String) :
    Except PyError Params :=
  if station_id = "" ∨ pyStrip station_id = "" then
    .error (.valueError "station_id is required")
  else
    let params : Params := [("id", pyStrip station_id)]
    let params := addOptParam "date" date params
    let params := addOptParam "time" time params
    .ok params

/-- The full `departure_board` handler: validation, then one call of
`make_api_request('departureBoard', params)`. -/
def departure_board (station_id : String) (date time : Option String)
    (net : NetOutcome) : ToolResult :=
  runTool "departureBoard" (departure_board_params station_id date time) net

/-- Validation, clamping and parameter construction of `nearby_stops`:
rejects out-of-range coordinates and non-positive limits with
`ValueError`, silently clamps `max_radius` to 10000 and `max_number` to
50, then builds the four stringified parameters. -/
def nearby_stops_params (latitude longitude : ℚ) (max_radius max_number : Int) :
    Except PyError Params :=
  if ¬(-90 ≤ latitude ∧ latitude ≤ 90) then
    .error (.valueError "Latitude must be between -90 and 90")
  else if ¬(-180 ≤ longitude ∧ longitude ≤ 180) then
    .error (.valueError "Longitude must be between -180 and 180")
  else if max_radius < 1 then
    .error (.valueError "max_radius must be at least 1 meter")
  else
    let max_radius := if max_radius > 10000 then 10000 else max_radius
    if max_number < 1 then
      .error (.valueError "max_number must be at least 1")
    else
      let max_number := if max_number > 50 then 50 else max_number
      .ok [("coordX", pyFloatStr longitude), ("coordY", pyFloatStr latitude),
           ("maxRadius", toString max_radius), ("maxNumber", toString max_number)]

/-- The full `nearby_stops` handler: validation and clamping, then one
call of `make_api_request('stopsNearby', params)`. -/
def nearby_stops (latitude longitude : ℚ) (max_radius max_number : Int)
    (net : NetOutcome) : ToolResult :=
  runTool "stopsNearby" (nearby_stops_params latitude longitude max_radius max_number) net

/-- The ambient process configuration read by `get_server_info`: the
`ENVIRONMENT` variable (absent when unset) and the host interpreter
version string (`sys.version.split()[0]`), both fixed for the lifetime of
the process. -/
structure ServerConfig where
  environment : Option String
  pythonVersion : String
deriving DecidableEq

/-- The record returned by `get_server_info`, field for field. -/
structure ServerInfo where
  server_name : String
  version : String
  environment : String
  python_version : String
  api_base : String
  transport : String
  tools : List String
  description : String
deriving DecidableEq

/-- `get_server_info()` from the source: a pure function of the process
configuration.  It issues no outbound request (its sent-request list is
empty by construction) and always returns the fixed record. -/
def get_server_info (cfg : ServerConfig) : List SentRequest × ServerInfo :=
  ([],
   { server_name := "Rejseplanen MCP Server"
     version := "1.0.0"
     environment := cfg.environment.getD "development"
     python_version := cfg.pythonVersion
     api_base := REJSEPLANEN_API_BASE
     transport := "HTTP (Stateless)"
     tools := ["location_search", "trip_search", "departure_board", "nearby_stops",
               "get_server_info"]
     description := "MCP server for Danish public transportation via Rejseplanen.dk API 2.0" })

/-! ### Helper lemmas shared by the claim theorems -/

/-- Looking up a key right after storing it yields the stored value. -/
theorem dlookup_dinsert_self (k v : String) (l : Params) :
    dlookup k (dinsert k v l) = some v := by
  induction l with
  | nil => simp [dinsert, dlookup]
  | cons hd tl ih =>
    obtain ⟨k', v'⟩ := hd
    by_cases h : k' = k
    · simp [dinsert, dlookup, h]
    · simp [dinsert, dlookup, h, ih]

/-- Storing under one key leaves lookups of a different key unchanged. -/
theorem dlookup_dinsert_ne (k k' v : String) (h : k' ≠ k) (l : Params) :
    dlookup k (dinsert k' v l) = dlookup k l := by
  induction l with
  | nil => simp [dinsert, dlookup, h]
  | cons hd tl ih =>
    obtain ⟨k'', v''⟩ := hd
    by_cases h2 : k'' = k'
    · subst h2
      simp [dinsert, dlookup, h]
    · simp only [dinsert, if_neg h2, dlookup]
      by_cases h3 : k'' = k
      · simp [h3]
      · simp [h3, ih]

/-- An optional parameter stored under one key leaves lookups of a
different key unchanged. -/
theorem dlookup_addOptParam_ne (k k' : String) (v : Option String) (l : Params)
    (h : k' ≠ k) : dlookup k (addOptParam k' v l) = dlookup k l := by
  cases v with
  | none => rfl
  | some s =>
    by_cases hs : s = "" <;> simp [addOptParam, hs, dlookup_dinsert_ne k k' s h l]

/-- A string with nonempty trim fails neither half of the Python test
`not s or not s.strip()`. -/
theorem not_blank_cond {s : String} (h : pyStrip s ≠ "") : ¬(s = "" ∨ pyStrip s = "") := by
  rintro (rfl | h')
  · exact h rfl
  · exact h h'

/-- `make_api_request` never raises `ValueError`: its failures are all
bare `Exception`s. -/
theorem make_api_request_not_invalid (ep : String) (p : Params) (net : NetOutcome) :
    isInvalidArgument (make_api_request ep p net).result = false := by
  cases net <;> rfl

/-- A handler call raises `ValueError` exactly when its validation stage
did: the network stage can only raise bare `Exception`s. -/
theorem isInvalidArgument_runTool (ep : String) (b : Except PyError Params)
    (net : NetOutcome) :
    isInvalidArgument (runTool ep b net).result = raisesInvalidArgument b := by
  cases b with
  | error e => cases e <;> rfl
  | ok p => cases net <;> rfl

/-- When validation raises, no outbound request is issued. -/
theorem runTool_sent_of_error (ep : String) (e : PyError) (net : NetOutcome) :
    (runTool ep (.error e) net).sent = [] := rfl

/-- The `ValueError` raised by `nearby_stops` characterised: exactly when a
coordinate is out of range or a limit is non-positive. -/
theorem nearby_params_invalid_iff (la lo : ℚ) (r n : Int) :
    raisesInvalidArgument (nearby_stops_params la lo r n) = true ↔
      la < -90 ∨ 90 < la ∨ lo < -180 ∨ 180 < lo ∨ r < 1 ∨ n < 1 := by
  unfold nearby_stops_params
  by_cases h1 : -90 ≤ la ∧ la ≤ 90
  · rw [if_neg (not_not_intro h1)]
    by_cases h2 : -180 ≤ lo ∧ lo ≤ 180
    · rw [if_neg (not_not_intro h2)]
      by_cases h3 : r < 1
      · rw [if_pos h3]
        simp only [raisesInvalidArgument, true_iff]
        exact Or.inr (Or.inr (Or.inr (Or.inr (Or.inl h3))))
      · rw [if_neg h3]
        by_cases h4 : n < 1
        · rw [if_pos h4]
          simp only [raisesInvalidArgument, true_iff]
          exact Or.inr (Or.inr (Or.inr (Or.inr (Or.inr h4))))
        · rw [if_neg h4]
          simp only [raisesInvalidArgument, Bool.false_eq_true, false_iff]
          push_neg
          exact ⟨h1.1, h1.2, h2.1, h2.2, by omega, by omega⟩
    · rw [if_pos h2]
      simp only [raisesInvalidArgument, true_iff]
      rw [not_and_or, not_le, not_le] at h2
      rcases h2 with h2 | h2
      · exact Or.inr (Or.inr (Or.inl h2))
      · exact Or.inr (Or.inr (Or.inr (Or.inl h2)))
  · rw [if_pos h1]
    simp only [raisesInvalidArgument, true_iff]
    rw [not_and_or, not_le, not_le] at h1
    rcases h1 with h1 | h1
    · exact Or.inl h1
    · exact Or.inr (Or.inl h1)

/-- Validation raised by `trip_search` whenever either ID is blank. -/
theorem trip_params_blank (o d : String) (dt tm : Option String) (t b m f : Bool)
    (h : pyStrip o = "" ∨ pyStrip d = "") :
    raisesInvalidArgument (trip_search_params o d dt tm t b m f) = true := by
  unfold trip_search_params
  rcases h with h | h
  · rw [if_pos (Or.inr h)]; rfl
  · by_cases ho : o = "" ∨ pyStrip o = ""
    · rw [if_pos ho]; rfl
    · rw [if_neg ho, if_pos (Or.inr h)]; rfl

/-! ### Claim theorems -/

/-- Claim C1 (counterexample): the claim "each failure trigger maps to its
own distinguishable error kind" is false at a concrete input.  A non-2xx
HTTP status does not fail with a dedicated `UpstreamHTTPError` carrying
the status and body: `raise_for_status()`'s `HTTPError` is caught by the
`except RequestException` clause, so a 404 and a plain connection failure
both raise a bare `Exception` with the same message prefix — the same
error kind, hence not distinguishable from each other. -/
theorem upstream_error_single_kind_cex :
    (make_api_request "trip" [("originId", "A")]
        (.httpError "404 Client Error: Not Found for url: https://xmlopen.rejseplanen.dk/bin/rest.exe/trip")).result =
      .error (.exception
        "Rejseplanen API request failed: 404 Client Error: Not Found for url: https://xmlopen.rejseplanen.dk/bin/rest.exe/trip") ∧
    (make_api_request "trip" [("originId", "A")] (.connError "Connection refused")).result =
      .error (.exception "Rejseplanen API request failed: Connection refused") ∧
    PyError.kind (.exception
        "Rejseplanen API request failed: 404 Client Error: Not Found for url: https://xmlopen.rejseplanen.dk/bin/rest.exe/trip") =
      PyError.kind (.exception "Rejseplanen API request failed: Connection refused") :=
  ⟨rfl, rfl, rfl⟩

/-- Claim C1 (amended): every upstream failure of `make_api_request` is
raised as the single generic `Exception` class, distinguishable from
validation failures (which use `ValueError`) but not from one another by
kind: a timeout yields a message stating the 30-second timeout duration; a
non-2xx HTTP status and any other network-level failure both yield
`"Rejseplanen API request failed: ..."` (the status appears only inside
the embedded cause text, never as a structured status-and-body error); a
response body that is not valid JSON yields
`"Failed to parse JSON response: ..."`. -/
theorem upstream_error_messages (endpoint : String) (params : Params) (e : String) :
    (make_api_request endpoint params .timeout).result =
      .error (.exception
        ("Request to Rejseplanen API timed out after " ++ toString REQUEST_TIMEOUT ++ " seconds")) ∧
    (make_api_request endpoint params (.httpError e)).result =
      .error (.exception ("Rejseplanen API request failed: " ++ e)) ∧
    (make_api_request endpoint params (.connError e)).result =
      .error (.exception ("Rejseplanen API request failed: " ++ e)) ∧
    (make_api_request endpoint params (.badJson e)).result =
      .error (.exception ("Failed to parse JSON response: " ++ e)) ∧
    (∀ m v, PyError.kind (.exception m) ≠ PyError.kind (.valueError v)) := by
  refine ⟨rfl, rfl, rfl, rfl, fun m v h => ?_⟩
  simp [PyError.kind] at h

/-- Claim C1 (witness): the amended theorem applied at concrete inputs. -/
theorem upstream_error_messages_witness :
    (make_api_request "location" [("input", "K")] .timeout).result =
      .error (.exception "Request to Rejseplanen API timed out after 30 seconds") ∧
    PyError.kind (.exception "boom") ≠ PyError.kind (.valueError "bad input") :=
  ⟨(upstream_error_messages "location" [("input", "K")] "x").1,
   (upstream_error_messages "location" [("input", "K")] "x").2.2.2.2 "boom" "bad input"⟩

/-- Claim C9: `make_api_request` mutates the `params` mapping passed to it
by the caller: after any invocation — successful or failed, every failure
being past the injection point, which is the helper's first statement —
the caller's own mapping is exactly the original with `format` bound to
`json`, so in particular it contains that binding; the helper operates on
the caller's mapping itself, not on a copy. -/
theorem make_api_request_mutates_params (endpoint : String) (params : Params)
    (net : NetOutcome) :
    (make_api_request endpoint params net).callerParams = dinsert "format" "json" params ∧
    dlookup "format" (make_api_request endpoint params net).callerParams = some "json" :=
  ⟨rfl, dlookup_dinsert_self "format" "json" params⟩

/-- Claim C8: `get_server_info` issues no outbound request and always
returns; any two invocations under the same process configuration (the
`ENVIRONMENT` label and the fixed host interpreter version) return equal
records, and the returned tool list is exactly the five tool names. -/
theorem get_server_info_pure_fixed (cfg cfg' : ServerConfig)
    (henv : cfg.environment = cfg'.environment)
    (hpy : cfg.pythonVersion = cfg'.pythonVersion) :
    get_server_info cfg = get_server_info cfg' ∧
    (get_server_info cfg).1 = [] ∧
    (get_server_info cfg).2.tools =
      ["location_search", "trip_search", "departure_board", "nearby_stops",
       "get_server_info"] := by
  obtain ⟨e, p⟩ := cfg
  obtain ⟨e', p'⟩ := cfg'
  cases henv
  cases hpy
  exact ⟨rfl, rfl, rfl⟩

/-- Claim C8 (witness): the theorem applied at a concrete configuration. -/
theorem get_server_info_pure_fixed_witness :
    get_server_info ⟨some "production", "3.11.9"⟩ =
      get_server_info ⟨some "production", "3.11.9"⟩ ∧
    (get_server_info ⟨some "production", "3.11.9"⟩).1 = [] ∧
    (get_server_info ⟨some "production", "3.11.9"⟩).2.tools =
      ["location_search", "trip_search", "departure_board", "nearby_stops",
       "get_server_info"] :=
  get_server_info_pure_fixed ⟨some "production", "3.11.9"⟩ ⟨some "production", "3.11.9"⟩ rfl rfl

/-- When the validation stage raises `ValueError`, the handler raises it
to the caller and issues no outbound request. -/
theorem runTool_invalid_of_raises (ep : String) (bu : Except PyError Params)
    (net : NetOutcome) (h : raisesInvalidArgument bu = true) :
    (runTool ep bu net).sent = [] ∧ isInvalidArgument (runTool ep bu net).result = true := by
  cases bu with
  | error e =>
    cases e with
    | valueError m => exact ⟨rfl, rfl⟩
    | exception m => simp [raisesInvalidArgument] at h
  | ok p => simp [raisesInvalidArgument] at h

/-- A handler call that returns successfully issued exactly one outbound
request, and that request carried `format = json`. -/
theorem runTool_ok_one_request (ep : String) (bu : Except PyError Params)
    (net : NetOutcome) (j : Json) (h : (runTool ep bu net).result = .ok j) :
    (runTool ep bu net).sent.length = 1 ∧
    ∀ req ∈ (runTool ep bu net).sent, dlookup "format" req.params = some "json" := by
  cases bu with
  | error e => exact absurd h (by simp [runTool])
  | ok p =>
    refine ⟨rfl, fun req hreq => ?_⟩
    have hr : req = ⟨REJSEPLANEN_API_BASE ++ "/" ++ ep, dinsert "format" "json" p⟩ := by
      simpa [runTool, make_api_request] using hreq
    rw [hr]
    exact dlookup_dinsert_self "format" "json" p

/-- Claim C2: whenever a tool handler's arguments fail a validation
precondition (blank required string, out-of-range coordinate,
non-positive limit), the handler raises `ValueError` (`InvalidArgument`)
and issues no outbound network request, for every behaviour of the
network and all four network-calling handlers. -/
theorem validation_failure_no_request (net : NetOutcome) :
    (∀ q, pyStrip q = "" →
      (location_search q net).sent = [] ∧
      isInvalidArgument (location_search q net).result = true) ∧
    (∀ o d dt tm t b m f, (pyStrip o = "" ∨ pyStrip d = "") →
      (trip_search o d dt tm t b m f net).sent = [] ∧
      isInvalidArgument (trip_search o d dt tm t b m f net).result = true) ∧
    (∀ sid dt tm, pyStrip sid = "" →
      (departure_board sid dt tm net).sent = [] ∧
      isInvalidArgument (departure_board sid dt tm net).result = true) ∧
    (∀ la lo r n, (la < -90 ∨ 90 < la ∨ lo < -180 ∨ 180 < lo ∨ r < 1 ∨ n < 1) →
      (nearby_stops la lo r n net).sent = [] ∧
      isInvalidArgument (nearby_stops la lo r n net).result = true) := by
  refine ⟨fun q hq => ?_, fun o d dt tm t b m f h => ?_, fun sid dt tm hs => ?_,
    fun la lo r n h => ?_⟩
  · have hb : raisesInvalidArgument (location_search_params q) = true := by
      unfold location_search_params
      rw [if_pos (Or.inr hq)]
      rfl
    exact runTool_invalid_of_raises "location" _ net hb
  · exact runTool_invalid_of_raises "trip" _ net (trip_params_blank o d dt tm t b m f h)
  · have hb : raisesInvalidArgument (departure_board_params sid dt tm) = true := by
      unfold departure_board_params
      rw [if_pos (Or.inr hs)]
      rfl
    exact runTool_invalid_of_raises "departureBoard" _ net hb
  · exact runTool_invalid_of_raises "stopsNearby" _ net
      ((nearby_params_invalid_iff la lo r n).mpr h)

/-- Claim C2 (witness): a whitespace-only query and an out-of-range
latitude are both rejected without any outbound request. -/
theorem validation_failure_no_request_witness :
    (location_search "   " (.ok .null)).sent = [] ∧
    isInvalidArgument (location_search "   " (.ok .null)).result = true ∧
    (nearby_stops 95 12.5683 1000 10 (.ok .null)).sent = [] ∧
    isInvalidArgument (nearby_stops 95 12.5683 1000 10 (.ok .null)).result = true := by
  obtain ⟨h1, h2⟩ := (validation_failure_no_request (.ok .null)).1 "   " rfl
  obtain ⟨h3, h4⟩ := (validation_failure_no_request (.ok .null)).2.2.2 95 12.5683 1000 10
    (Or.inr (Or.inl (by norm_num)))
  exact ⟨h1, h2, h3, h4⟩

/-- Claim C3: for in-range coordinates and positive limits, `nearby_stops`
does not fail validation; the parameters it builds are exactly
`coordX` = stringified longitude, `coordY` = stringified latitude,
`maxRadius` = stringified `min max_radius 10000` and
`maxNumber` = stringified `min max_number 50` — values above the caps are
silently clamped, not rejected. -/
theorem nearby_stops_clamping (la lo : ℚ) (r n : Int) (net : NetOutcome)
    (hla1 : -90 ≤ la) (hla2 : la ≤ 90) (hlo1 : -180 ≤ lo) (hlo2 : lo ≤ 180)
    (hr : 1 ≤ r) (hn : 1 ≤ n) :
    nearby_stops_params la lo r n =
      .ok [("coordX", pyFloatStr lo), ("coordY", pyFloatStr la),
           ("maxRadius", toString (min r 10000)), ("maxNumber", toString (min n 50))] ∧
    isInvalidArgument (nearby_stops la lo r n net).result = false := by
  have hclampR : (if r > 10000 then (10000 : Int) else r) = min r 10000 := by
    rcases le_or_lt r 10000 with h | h
    · rw [if_neg (not_lt.mpr h), min_eq_left h]
    · rw [if_pos h, min_eq_right h.le]
  have hclampN : (if n > 50 then (50 : Int) else n) = min n 50 := by
    rcases le_or_lt n 50 with h | h
    · rw [if_neg (not_lt.mpr h), min_eq_left h]
    · rw [if_pos h, min_eq_right h.le]
  have hb : nearby_stops_params la lo r n =
      .ok [("coordX", pyFloatStr lo), ("coordY", pyFloatStr la),
           ("maxRadius", toString (min r 10000)), ("maxNumber", toString (min n 50))] := by
    unfold nearby_stops_params
    simp only [if_neg (not_not_intro (⟨hla1, hla2⟩ : -90 ≤ la ∧ la ≤ 90)),
      if_neg (not_not_intro (⟨hlo1, hlo2⟩ : -180 ≤ lo ∧ lo ≤ 180)),
      if_neg (not_lt.mpr hr), if_neg (not_lt.mpr hn), hclampR, hclampN]
  refine ⟨hb, ?_⟩
  rw [show nearby_stops la lo r n net =
      runTool "stopsNearby" (nearby_stops_params la lo r n) net from rfl,
    isInvalidArgument_runTool, hb]
  rfl

/-- Claim C3 (witness): a 50000-metre radius is clamped to 10000 and the
call is not rejected. -/
theorem nearby_stops_clamping_witness :
    nearby_stops_params 55.6761 12.5683 50000 10 =
      .ok [("coordX", pyFloatStr 12.5683), ("coordY", pyFloatStr 55.6761),
           ("maxRadius", "10000"), ("maxNumber", "10")] ∧
    isInvalidArgument (nearby_stops 55.6761 12.5683 50000 10 (.ok .null)).result = false :=
  nearby_stops_clamping 55.6761 12.5683 50000 10 (.ok .null) (by norm_num) (by norm_num)
    (by norm_num) (by norm_num) (by norm_num) (by norm_num)

/-- Claim C4: `nearby_stops` raises `ValueError` (`InvalidArgument`) if
and only if latitude is outside `[-90, 90]`, or longitude is outside
`[-180, 180]`, or `max_radius < 1`, or `max_number < 1`; the interval
bounds themselves are accepted. -/
theorem nearby_stops_invalid_iff (la lo : ℚ) (r n : Int) (net : NetOutcome) :
    (isInvalidArgument (nearby_stops la lo r n net).result = true ↔
      la < -90 ∨ 90 < la ∨ lo < -180 ∨ 180 < lo ∨ r < 1 ∨ n < 1) ∧
    isInvalidArgument (nearby_stops 90 180 1 1 net).result = false ∧
    isInvalidArgument (nearby_stops (-90) (-180) 1 1 net).result = false := by
  have key : ∀ (la lo : ℚ) (r n : Int),
      isInvalidArgument (nearby_stops la lo r n net).result = true ↔
        la < -90 ∨ 90 < la ∨ lo < -180 ∨ 180 < lo ∨ r < 1 ∨ n < 1 := by
    intro la lo r n
    rw [show nearby_stops la lo r n net =
        runTool "stopsNearby" (nearby_stops_params la lo r n) net from rfl,
      isInvalidArgument_runTool]
    exact nearby_params_invalid_iff la lo r n
  refine ⟨key la lo r n, ?_, ?_⟩
  · cases hb : isInvalidArgument (nearby_stops 90 180 1 1 net).result with
    | false => rfl
    | true => rcases (key 90 180 1 1).mp hb with h | h | h | h | h | h <;> norm_num at h
  · cases hb : isInvalidArgument (nearby_stops (-90) (-180) 1 1 net).result with
    | false => rfl
    | true => rcases (key (-90) (-180) 1 1).mp hb with h | h | h | h | h | h <;> norm_num at h

/-- Claim C4 (witness): a non-positive `max_number` is rejected while the
exact interval bounds are accepted. -/
theorem nearby_stops_invalid_iff_witness :
    isInvalidArgument (nearby_stops 55.6761 12.5683 1000 0 (.ok .null)).result = true ∧
    isInvalidArgument (nearby_stops 90 180 1 1 (.ok .null)).result = false :=
  ⟨(nearby_stops_invalid_iff 55.6761 12.5683 1000 0 (.ok .null)).1.mpr
      (Or.inr (Or.inr (Or.inr (Or.inr (Or.inr (by norm_num)))))),
   (nearby_stops_invalid_iff 55.6761 12.5683 1000 0 (.ok .null)).2.1⟩

/-- Claim C5: with non-blank IDs and `date`/`time` absent, `trip_search`
builds exactly `originId` = trimmed origin, `destId` = trimmed
destination, and the four flags `useTog`, `useBus`, `useMetro`,
`useFerry`, each `"1"` when its boolean argument is true and `"0"` when
false, always present; no `date` or `time` key is included. -/
theorem trip_search_default_flags (o d : String) (t b m f : Bool)
    (ho : pyStrip o ≠ "") (hd : pyStrip d ≠ "") :
    trip_search_params o d none none t b m f =
      .ok [("originId", pyStrip o), ("destId", pyStrip d),
           ("useTog", if t then "1" else "0"), ("useBus", if b then "1" else "0"),
           ("useMetro", if m then "1" else "0"), ("useFerry", if f then "1" else "0")] ∧
    dlookup "date" [("originId", pyStrip o), ("destId", pyStrip d),
           ("useTog", if t then "1" else "0"), ("useBus", if b then "1" else "0"),
           ("useMetro", if m then "1" else "0"), ("useFerry", if f then "1" else "0")] = none ∧
    dlookup "time" [("originId", pyStrip o), ("destId", pyStrip d),
           ("useTog", if t then "1" else "0"), ("useBus", if b then "1" else "0"),
           ("useMetro", if m then "1" else "0"), ("useFerry", if f then "1" else "0")] = none := by
  refine ⟨?_, rfl, rfl⟩
  unfold trip_search_params
  rw [if_neg (not_blank_cond ho), if_neg (not_blank_cond hd)]
  rfl

/-- Claim C5 (witness): the theorem applied to the specification's own
example IDs with default flags. -/
theorem trip_search_default_flags_witness :
    trip_search_params "008600626" "008600053" none none true true true true =
      .ok [("originId", "008600626"), ("destId", "008600053"),
           ("useTog", "1"), ("useBus", "1"), ("useMetro", "1"), ("useFerry", "1")] ∧
    dlookup "date" [("originId", "008600626"), ("destId", "008600053"),
           ("useTog", "1"), ("useBus", "1"), ("useMetro", "1"), ("useFerry", "1")] = none ∧
    dlookup "time" [("originId", "008600626"), ("destId", "008600053"),
           ("useTog", "1"), ("useBus", "1"), ("useMetro", "1"), ("useFerry", "1")] = none :=
  trip_search_default_flags "008600626" "008600053" true true true true
    (by decide) (by decide)

/-- Claim C6: `location_search` raises `ValueError` (`InvalidArgument`) if
and only if `query` is blank after trimming; otherwise the single
parameter it contributes is `input` = trimmed query, passed otherwise
unmodified, and the one outbound request targets the `location`
endpoint. -/
theorem location_search_contract (q : String) (net : NetOutcome) :
    (isInvalidArgument (location_search q net).result = true ↔ pyStrip q = "") ∧
    (pyStrip q ≠ "" →
      location_search_params q = .ok [("input", pyStrip q)] ∧
      (location_search q net).sent =
        [⟨REJSEPLANEN_API_BASE ++ "/" ++ "location",
          dinsert "format" "json" [("input", pyStrip q)]⟩]) := by
  by_cases h : pyStrip q = ""
  · have hb : raisesInvalidArgument (location_search_params q) = true := by
      unfold location_search_params
      rw [if_pos (Or.inr h)]
      rfl
    refine ⟨?_, fun h' => absurd h h'⟩
    rw [show location_search q net = runTool "location" (location_search_params q) net from rfl,
      isInvalidArgument_runTool, hb]
    simp [h]
  · have hb : location_search_params q = .ok [("input", pyStrip q)] := by
      unfold location_search_params
      rw [if_neg (not_blank_cond h)]
    constructor
    · rw [show location_search q net = runTool "location" (location_search_params q) net from rfl,
        isInvalidArgument_runTool, hb]
      simp [raisesInvalidArgument, h]
    · intro h'
      refine ⟨hb, ?_⟩
      rw [show location_search q net = runTool "location" (location_search_params q) net from rfl,
        hb]
      rfl

/-- Claim C6 (witness): a whitespace-only query is rejected; a real one
contributes exactly `input` = trimmed query. -/
theorem location_search_contract_witness :
    isInvalidArgument (location_search "  " (.ok .null)).result = true ∧
    location_search_params " Aarhus H " = .ok [("input", "Aarhus H")] :=
  ⟨(location_search_contract "  " (.ok .null)).1.mpr rfl,
   ((location_search_contract " Aarhus H " (.ok .null)).2 (by decide)).1⟩

/-- Claim C7: every successful handler call issues exactly one outbound
upstream request with no retries, and the query parameters of that
request always contain `format = json`, `make_api_request` overwriting
any caller-provided binding of the `format` key, for all four
network-calling handlers and endpoints. -/
theorem every_call_one_request_format_json (net : NetOutcome) :
    (∀ endpoint params,
      (make_api_request endpoint params net).sent =
        [⟨REJSEPLANEN_API_BASE ++ "/" ++ endpoint, dinsert "format" "json" params⟩] ∧
      dlookup "format" (dinsert "format" "json" params) = some "json") ∧
    (∀ q j, (location_search q net).result = .ok j →
      (location_search q net).sent.length = 1 ∧
      ∀ req ∈ (location_search q net).sent, dlookup "format" req.params = some "json") ∧
    (∀ o d dt tm t b m f j, (trip_search o d dt tm t b m f net).result = .ok j →
      (trip_search o d dt tm t b m f net).sent.length = 1 ∧
      ∀ req ∈ (trip_search o d dt tm t b m f net).sent,
        dlookup "format" req.params = some "json") ∧
    (∀ sid dt tm j, (departure_board sid dt tm net).result = .ok j →
      (departure_board sid dt tm net).sent.length = 1 ∧
      ∀ req ∈ (departure_board sid dt tm net).sent,
        dlookup "format" req.params = some "json") ∧
    (∀ la lo r n j, (nearby_stops la lo r n net).result = .ok j →
      (nearby_stops la lo r n net).sent.length = 1 ∧
      ∀ req ∈ (nearby_stops la lo r n net).sent,
        dlookup "format" req.params = some "json") :=
  ⟨fun _ params => ⟨rfl, dlookup_dinsert_self "format" "json" params⟩,
   fun _ j h => runTool_ok_one_request _ _ net j h,
   fun _ _ _ _ _ _ _ _ j h => runTool_ok_one_request _ _ net j h,
   fun _ _ _ j h => runTool_ok_one_request _ _ net j h,
   fun _ _ _ _ j h => runTool_ok_one_request _ _ net j h⟩

/-- Claim C7 (witness): a successful `location_search` call issued exactly
one request. -/
theorem every_call_one_request_format_json_witness :
    (location_search "Aarhus" (.ok .null)).result = .ok .null ∧
    (location_search "Aarhus" (.ok .null)).sent.length = 1 :=
  ⟨rfl, ((every_call_one_request_format_json (.ok .null)).2.1 "Aarhus" .null rfl).1⟩

/-- Claim C10: `trip_search` and `departure_board` never validate `date`
or `time` against the expected formats: an empty string is omitted
exactly like an absent argument, while every non-empty string — including
whitespace-only or malformed ones — is forwarded verbatim and untrimmed
under the `date` or `time` key of the built parameters. -/
theorem date_time_forwarded_verbatim :
    (∀ o d tm t b m f,
      trip_search_params o d (some "") tm t b m f =
        trip_search_params o d none tm t b m f) ∧
    (∀ o d dt t b m f,
      trip_search_params o d dt (some "") t b m f =
        trip_search_params o d dt none t b m f) ∧
    (∀ sid tm,
      departure_board_params sid (some "") tm = departure_board_params sid none tm) ∧
    (∀ sid dt,
      departure_board_params sid dt (some "") = departure_board_params sid dt none) ∧
    (∀ o d s tm t b m f p, s ≠ "" →
      trip_search_params o d (some s) tm t b m f = .ok p → dlookup "date" p = some s) ∧
    (∀ o d dt s t b m f p, s ≠ "" →
      trip_search_params o d dt (some s) t b m f = .ok p → dlookup "time" p = some s) ∧
    (∀ sid s tm p, s ≠ "" →
      departure_board_params sid (some s) tm = .ok p → dlookup "date" p = some s) ∧
    (∀ sid dt s p, s ≠ "" →
      departure_board_params sid dt (some s) = .ok p → dlookup "time" p = some s) := by
  refine ⟨fun o d tm t b m f => rfl, fun o d dt t b m f => rfl, fun sid tm => rfl,
    fun sid dt => rfl, ?_, ?_, ?_, ?_⟩
  · intro o d s tm t b m f p hs hp
    unfold trip_search_params at hp
    by_cases ho : o = "" ∨ pyStrip o = ""
    · rw [if_pos ho] at hp
      exact absurd hp (by simp)
    · rw [if_neg ho] at hp
      by_cases hd : d = "" ∨ pyStrip d = ""
      · rw [if_pos hd] at hp
        exact absurd hp (by simp)
      · rw [if_neg hd] at hp
        simp only [Except.ok.injEq] at hp
        subst hp
        rw [dlookup_dinsert_ne "date" "useFerry" _ (by decide),
          dlookup_dinsert_ne "date" "useMetro" _ (by decide),
          dlookup_dinsert_ne "date" "useBus" _ (by decide),
          dlookup_dinsert_ne "date" "useTog" _ (by decide),
          dlookup_addOptParam_ne "date" "time" tm _ (by decide)]
        simp only [addOptParam, if_neg hs]
        exact dlookup_dinsert_self "date" s _
  · intro o d dt s t b m f p hs hp
    unfold trip_search_params at hp
    by_cases ho : o = "" ∨ pyStrip o = ""
    · rw [if_pos ho] at hp
      exact absurd hp (by simp)
    · rw [if_neg ho] at hp
      by_cases hd : d = "" ∨ pyStrip d = ""
      · rw [if_pos hd] at hp
        exact absurd hp (by simp)
      · rw [if_neg hd] at hp
        simp only [Except.ok.injEq] at hp
        subst hp
        rw [dlookup_dinsert_ne "time" "useFerry" _ (by decide),
          dlookup_dinsert_ne "time" "useMetro" _ (by decide),
          dlookup_dinsert_ne "time" "useBus" _ (by decide),
          dlookup_dinsert_ne "time" "useTog" _ (by decide)]
        simp only [addOptParam, if_neg hs]
        exact dlookup_dinsert_self "time" s _
  · intro sid s tm p hs hp
    unfold departure_board_params at hp
    by_cases hi : sid = "" ∨ pyStrip sid = ""
    · rw [if_pos hi] at hp
      exact absurd hp (by simp)
    · rw [if_neg hi] at hp
      simp only [Except.ok.injEq] at hp
      subst hp
      rw [dlookup_addOptParam_ne "date" "time" tm _ (by decide)]
      simp only [addOptParam, if_neg hs]
      exact dlookup_dinsert_self "date" s _
  · intro sid dt s p hs hp
    unfold departure_board_params at hp
    by_cases hi : sid = "" ∨ pyStrip sid = ""
    · rw [if_pos hi] at hp
      exact absurd hp (by simp)
    · rw [if_neg hi] at hp
      simp only [Except.ok.injEq] at hp
      subst hp
      simp only [addOptParam, if_neg hs]
      exact dlookup_dinsert_self "time" s _

/-- Claim C10 (witness): a malformed, whitespace-padded date string is
forwarded verbatim; an empty one is omitted like an absent argument. -/
theorem date_time_forwarded_verbatim_witness :
    trip_search_params "A" "B" (some " 99:99 ") none true true true true =
      .ok [("originId", "A"), ("destId", "B"), ("date", " 99:99 "),
           ("useTog", "1"), ("useBus", "1"), ("useMetro", "1"), ("useFerry", "1")] ∧
    dlookup "date" [("originId", "A"), ("destId", "B"), ("date", " 99:99 "),
           ("useTog", "1"), ("useBus", "1"), ("useMetro", "1"), ("useFerry", "1")] =
      some " 99:99 " ∧
    departure_board_params "S1" (some "") none = departure_board_params "S1" none none := by
  refine ⟨rfl, ?_, date_time_forwarded_verbatim.2.2.1 "S1" none⟩
  exact date_time_forwarded_verbatim.2.2.2.2.1 "A" "B" " 99:99 " none true true true true
    [("originId", "A"), ("destId", "B"), ("date", " 99:99 "),
     ("useTog", "1"), ("useBus", "1"), ("useMetro", "1"), ("useFerry", "1")]
    (by decide) rfl
